import Mathlib

/-!
Shallow embedding of the alpha-api Express server (src/server.js and its
twin src/unnamed/part_000, which contain the same handlers).

The server's request handlers are modelled as pure Lean functions.  The
external collaborators (PostgreSQL pool, AWS S3) are modelled by explicit
oracle parameters deciding the outcome of each store call, and the
handlers additionally return the list of collaborator events they
performed, so atomicity, ordering and resource-release properties can be
stated over traces.

JavaScript dynamic values are embedded by the inductive `JSVal`; JS
numbers (`JSNum`) distinguish NaN, the two infinities and finite values
(modelled as rationals: no claim depends on binary-float rounding).
`Number(...)` string coercion implements the decimal, hex, octal, binary
and Infinity forms of ECMA-262 ToNumber; `new Date(...)` implements the
ISO-8601 date/date-time forms of the Date constructor over epoch
milliseconds (offset-less date-times are read as UTC, i.e. a server whose
clock runs UTC).
-/

namespace AlphaApi

/-- JS numbers: NaN, the infinities, and finite values as rationals. -/
inductive JSNum
  | nan
  | posInf
  | negInf
  | finite (q : ℚ)
deriving DecidableEq, Repr

/-- JS dynamic values as they occur in a JSON request body (plus undefined
for an absent property, as destructuring yields it). -/
inductive JSVal
  | undef
  | null
  | bool (b : Bool)
  | num (n : JSNum)
  | str (s : String)
deriving DecidableEq, Repr

/-- JS truthiness: falsy values are undefined, null, false, NaN, 0 and the
empty string. -/
def JSVal.truthy : JSVal → Bool
  | .undef => false
  | .null => false
  | .bool b => b
  | .num .nan => false
  | .num (.finite q) => q != 0
  | .num _ => true
  | .str s => s != ""

/-- Value of a list of decimal digit characters. -/
def digitsToNat (ds : List Char) : Nat :=
  ds.foldl (fun a c => a * 10 + (c.toNat - 48)) 0

/-- Value of a digit character in base `b` (hex letters allowed when `b = 16`),
none when the character is not a digit of that base. -/
def digitVal (b : Nat) (c : Char) : Option Nat :=
  let v :=
    if c.isDigit then some (c.toNat - 48)
    else if 'a' ≤ c ∧ c ≤ 'f' then some (c.toNat - 87)
    else if 'A' ≤ c ∧ c ≤ 'F' then some (c.toNat - 55)
    else none
  match v with
  | some n => if n < b then some n else none
  | none => none

/-- Value of a digit list in base `b`; none when empty or a character is out
of range. -/
def digitsInBase (b : Nat) (ds : List Char) : Option Nat :=
  if ds.isEmpty then none
  else ds.foldlM (fun a c => (digitVal b c).map (fun v => a * b + v)) 0

/-- ECMA StrWhiteSpace (the common characters). -/
def isStrWs (c : Char) : Bool :=
  c = ' ' ∨ c = '\t' ∨ c = '\n' ∨ c = '\r'

/-- The exponent part of a StrDecimalLiteral: empty gives the mantissa back,
otherwise e or E, an optional sign and at least one digit, consuming the
whole remainder. -/
def parseExpPart (q : ℚ) (cs : List Char) : Option ℚ :=
  match cs with
  | [] => some q
  | c :: rest =>
    if c = 'e' ∨ c = 'E' then
      let (neg, ds) :=
        match rest with
        | '+' :: ds => (false, ds)
        | '-' :: ds => (true, ds)
        | ds => (false, ds)
      if ds.isEmpty ∨ ¬ ds.all Char.isDigit then none
      else
        let e := digitsToNat ds
        some (if neg then q / 10 ^ e else q * 10 ^ e)
    else none

/-- StrUnsignedDecimalLiteral without the Infinity form: digits, digits.digits
or .digits, with an optional exponent, consuming the whole input. -/
def parseDecimal (cs : List Char) : Option ℚ :=
  let (ip, rest) := cs.span Char.isDigit
  match rest with
  | '.' :: rest2 =>
    let (fp, rest3) := rest2.span Char.isDigit
    if ip.isEmpty ∧ fp.isEmpty then none
    else
      parseExpPart ((digitsToNat ip : ℚ) + (digitsToNat fp : ℚ) / 10 ^ fp.length) rest3
  | _ =>
    if ip.isEmpty then none else parseExpPart (digitsToNat ip) rest

/-- An unsigned numeric string body: Infinity, a 0x/0o/0b literal, or a
decimal literal. -/
def parseUnsignedNum (cs : List Char) : JSNum :=
  if cs = "Infinity".toList then .posInf
  else
    match cs with
    | '0' :: b :: rest =>
      if b = 'x' ∨ b = 'X' then
        match digitsInBase 16 rest with
        | some n => .finite n
        | none => .nan
      else if b = 'o' ∨ b = 'O' then
        match digitsInBase 8 rest with
        | some n => .finite n
        | none => .nan
      else if b = 'b' ∨ b = 'B' then
        match digitsInBase 2 rest with
        | some n => .finite n
        | none => .nan
      else
        match parseDecimal cs with
        | some q => .finite q
        | none => .nan
    | _ =>
      match parseDecimal cs with
      | some q => .finite q
      | none => .nan

/-- A signed numeric body (after a + or - sign only Infinity or a decimal
literal is allowed). -/
def parseSignedTail (cs : List Char) : JSNum :=
  if cs = "Infinity".toList then .posInf
  else
    match parseDecimal cs with
    | some q => .finite q
    | none => .nan

/-- ECMA ToNumber on a string: trim whitespace, empty gives 0, then a signed
or unsigned numeric literal; anything else is NaN. -/
def strToNum (s : String) : JSNum :=
  let cs := ((s.toList.dropWhile isStrWs).reverse.dropWhile isStrWs).reverse
  match cs with
  | [] => .finite 0
  | '+' :: rest => parseSignedTail rest
  | '-' :: rest =>
    match parseSignedTail rest with
    | .posInf => .negInf
    | .finite q => .finite (-q)
    | n => n
  | _ => parseUnsignedNum cs

/-- ECMA ToNumber (`Number(v)`). -/
def JSVal.toNumber : JSVal → JSNum
  | .undef => .nan
  | .null => .finite 0
  | .bool b => .finite (if b then 1 else 0)
  | .num n => n
  | .str s => strToNum s

/-- ECMA ToString on numbers.  Integers are rendered exactly as JS does
(within the safe range; exponent notation for huge values is not modelled);
non-integral rationals are rendered as num/den — JS renders a decimal
expansion instead, but no claim depends on that rendering and it can never
produce the strings the handlers compare against. -/
def jsNumToString : JSNum → String
  | .nan => "NaN"
  | .posInf => "Infinity"
  | .negInf => "-Infinity"
  | .finite q => if q.den = 1 then toString q.num else toString q

/-- ECMA ToString (`String(v)`, template interpolation). -/
def JSVal.toJSString : JSVal → String
  | .undef => "undefined"
  | .null => "null"
  | .bool b => if b then "true" else "false"
  | .num n => jsNumToString n
  | .str s => s

/-- Days in a month of the proleptic Gregorian calendar. -/
def daysInMonth (y m : Nat) : Nat :=
  if m = 2 then
    if y % 4 = 0 ∧ (y % 100 ≠ 0 ∨ y % 400 = 0) then 29 else 28
  else if m = 4 ∨ m = 6 ∨ m = 9 ∨ m = 11 then 30
  else 31

/-- Days since the epoch 1970-01-01 of the civil date y-m-d (proleptic
Gregorian, floor-division form of the standard era-based computation). -/
def daysFromCivil (y m d : Int) : Int :=
  let y2 := if m ≤ 2 then y - 1 else y
  let era := Int.fdiv y2 400
  let yoe := y2 - era * 400
  let mp := Int.fmod (m + 9) 12
  let doy := Int.fdiv (153 * mp + 2) 5 + d - 1
  let doe := yoe * 365 + Int.fdiv yoe 4 - Int.fdiv yoe 100 + doy
  era * 146097 + doe - 719468

/-- Exactly n decimal digits from the front of the input, with the rest. -/
def readDigitsN (n : Nat) (cs : List Char) : Option (Nat × List Char) :=
  let taken := cs.take n
  if taken.length = n ∧ taken.all Char.isDigit then
    some (digitsToNat taken, cs.drop n)
  else none

/-- The optional time-zone tail of an ISO date-time: empty or Z reads as
offset 0, +HH:MM or -HH:MM as the signed offset in minutes; anything else
fails.  An offset-less date-time is local time in JS; the model assumes a
server clock running UTC. -/
def parseTzTail (cs : List Char) : Option Int :=
  match cs with
  | [] => some 0
  | ['Z'] => some 0
  | c :: rest =>
    if c = '+' ∨ c = '-' then
      match readDigitsN 2 rest with
      | some (h, rest2) =>
        match rest2 with
        | ':' :: rest3 =>
          match readDigitsN 2 rest3 with
          | some (mi, []) =>
            if h ≤ 23 ∧ mi ≤ 59 then
              let off : Int := h * 60 + mi
              some (if c = '-' then -off else off)
            else none
          | _ => none
        | _ => none
      | none => none
    else none

/-- The THH:MM[:SS[.digits]][tz] tail of an ISO date-time, as milliseconds
into the day minus the zone offset. -/
def parseTimeTail (cs : List Char) : Option Int :=
  match readDigitsN 2 cs with
  | some (h, rest) =>
    match rest with
    | ':' :: rest2 =>
      match readDigitsN 2 rest2 with
      | some (mi, rest3) =>
        let contSec : Option (Nat × Nat × List Char) :=
          match rest3 with
          | ':' :: rest4 =>
            match readDigitsN 2 rest4 with
            | some (s, rest5) =>
              match rest5 with
              | '.' :: rest6 =>
                let (ds, rest7) := rest6.span Char.isDigit
                if ds.isEmpty then none
                else some (s, digitsToNat ((ds.take 3) ++ List.replicate (3 - ds.length) '0'), rest7)
              | _ => some (s, 0, rest5)
            | none => none
          | _ => some (0, 0, rest3)
        match contSec with
        | some (s, ms, rest8) =>
          match parseTzTail rest8 with
          | some off =>
            if h ≤ 23 ∧ mi ≤ 59 ∧ s ≤ 59 then
              some ((h * 3600000 + mi * 60000 + s * 1000 + ms : Nat) - off * 60000)
            else none
          | none => none
        | none => none
      | none => none
    | _ => none
  | none => none

/-- The ISO-8601 forms of ECMA Date.parse: YYYY[-MM[-DD]] with an optional
time tail, as epoch milliseconds; none on everything else (the
implementation-defined fallback for non-ISO strings is out of the model). -/
def parseDateString (s : String) : Option Int :=
  match readDigitsN 4 s.toList with
  | some (y, rest) =>
    let contM : Option (Nat × List Char) :=
      match rest with
      | '-' :: rest2 =>
        match readDigitsN 2 rest2 with
        | some (m, rest3) => some (m, rest3)
        | none => none
      | _ => some (1, rest)
    match contM with
    | some (m, rest3) =>
      let contD : Option (Nat × List Char) :=
        match rest3 with
        | '-' :: rest4 =>
          match readDigitsN 2 rest4 with
          | some (d, rest5) => some (d, rest5)
          | none => none
        | _ => some (1, rest3)
      match contD with
      | some (d, rest5) =>
        if 1 ≤ m ∧ m ≤ 12 ∧ 1 ≤ d ∧ d ≤ daysInMonth y m then
          match rest5 with
          | [] => some (daysFromCivil y m d * 86400000)
          | 'T' :: rest6 =>
            match parseTimeTail rest6 with
            | some msOfDay => some (daysFromCivil y m d * 86400000 + msOfDay)
            | none => none
          | _ => none
        else none
      | none => none
    | none => none
  | none => none

/-- Truncation of a rational toward zero (as ECMA ToIntegerOrInfinity). -/
def ratTrunc (q : ℚ) : Int :=
  if 0 ≤ q then ⌊q⌋ else ⌈q⌉

/-- ECMA TimeClip: time values beyond 8.64e15 ms are invalid. -/
def timeClip (q : ℚ) : Option Int :=
  if |q| ≤ 8640000000000000 then some (ratTrunc q) else none

/-- `new Date(v)` for a single argument, as an optional epoch-millisecond
value (none is an Invalid Date).  Strings go through Date.parse, everything
else through ToNumber and TimeClip. -/
def newDate (v : JSVal) : Option Int :=
  match v with
  | .str s => parseDateString s
  | _ =>
    match v.toNumber with
    | .finite q => timeClip q
    | _ => none

/-- A JSON value, as assembled by the handlers for res.json. -/
inductive Json
  | null
  | bool (b : Bool)
  | num (q : ℚ)
  | str (s : String)
  | obj (fields : List (String × Json))

/-- A PostgreSQL error object as the pg driver raises it: the SQLSTATE code,
the constraint detail and the human message. -/
structure PgError where
  code : String
  detail : String
  message : String
deriving DecidableEq, Repr

/-- A committed row of the photos table. -/
structure PhotoRow where
  id : Nat
  s3_key : String
deriving DecidableEq, Repr

/-- A committed row of the bookings table, holding the inserted parameter
values (captured_at resolved by the COALESCE with NOW()). -/
structure BookingRow where
  id : Nat
  shift_id : JSNum
  type : String
  lat : Option JSNum
  lng : Option JSNum
  photo_id : Option Nat
  captured_at : Int
deriving DecidableEq, Repr

/-- The committed state of the relational store. -/
structure DBState where
  photos : List PhotoRow
  bookings : List BookingRow
deriving DecidableEq, Repr

/-- Oracle for one booking-creation call: the outcome the store gives each
statement (none is success) and the ids it assigns to the inserted rows. -/
structure StoreOracle where
  beginErr : Option PgError
  photoErr : Option PgError
  bookingErr : Option PgError
  commitErr : Option PgError
  photoId : Nat
  bookingId : Nat
deriving DecidableEq, Repr

/-- A collaborator action performed by the bookings handler, in order. -/
inductive Event
  | connect
  | beginTx
  | insertPhoto (key : String)
  | signUrl (key : String) (expiresSeconds : Nat)
  | insertBooking
  | commitTx
  | rollbackTx
  | release
deriving DecidableEq, Repr

/-- Model of the Object Store's signed GET URL for a bucket, a key and an
expiry (the URL's format is the collaborator's, opaque to the server). -/
def s3SignedGetUrl (bucket key : String) (expiresSeconds : Nat) : String :=
  "https://" ++ bucket ++ ".s3.amazonaws.com/" ++ key ++ "?Expires=" ++ toString expiresSeconds

/-- The S3 bucket name from the environment (configuration surface; a
constant of the model). -/
def BUCKET : String := "S3_BUCKET"

/-- signPhotoUrl of server.js: null for a missing key, else a signed GET URL
for the key, valid expiresSeconds (the call sites use the JS default 3600).
The second component records the s3.getSignedUrl calls made. -/
def signPhotoUrl (key : String) (expiresSeconds : Nat) : Option String × List Event :=
  if key = "" then (none, [])
  else (some (s3SignedGetUrl BUCKET key expiresSeconds), [Event.signUrl key expiresSeconds])

/-- toNum of server.js: null for undefined/null, else Number(v). -/
def toNum (v : JSVal) : Option JSNum :=
  if v = .undef ∨ v = .null then none else some v.toNumber

/-- Number.isNaN on a number-or-null value (false on null). -/
def optIsNaN : Option JSNum → Bool
  | some .nan => true
  | _ => false

/-- The destructured fields of a POST /bookings request body (undef for an
absent property). -/
structure ReqBody where
  shift_id : JSVal
  type : JSVal
  lat : JSVal
  lng : JSVal
  photo_key : JSVal
  taken_at : JSVal
deriving DecidableEq, Repr

/-- Outcome of a POST /bookings call: HTTP status, JSON body, the committed
store state after the call, and the collaborator events in order. -/
structure BookingsResult where
  status : Nat
  body : Json
  db : DBState
  events : List Event

/-- A 400-style body of the bookings handler. -/
def errBody (msg : String) : Json :=
  .obj [("ok", .bool false), ("error", .str msg)]

/-- The catch block of POST /bookings: ROLLBACK, then a 400
foreign_key_violation with the store detail when the SQLSTATE is 23503,
else a 500 server_error (the error itself is only logged); finally
releases the client. -/
def catchResult (e : PgError) (db : DBState) (evs : List Event) : BookingsResult :=
  if e.code = "23503" then
    { status := 400,
      body := .obj [("ok", .bool false), ("error", .str "foreign_key_violation"),
                    ("detail", .str e.detail)],
      db := db, events := evs ++ [.rollbackTx, .release] }
  else
    { status := 500, body := errBody "server_error",
      db := db, events := evs ++ [.rollbackTx, .release] }

/-- The booking JSON returned on 201: the RETURNING row spread together with
photo_url. -/
def bookingJson (r : BookingRow) (photoUrl : Option String) : Json :=
  .obj [("id", .num (r.id : ℚ)),
        ("shift_id", match r.shift_id with | .finite q => .num q | _ => .null),
        ("type", .str r.type),
        ("lat", match r.lat with | some (.finite q) => .num q | _ => .null),
        ("lng", match r.lng with | some (.finite q) => .num q | _ => .null),
        ("photo_id", match r.photo_id with | some i => .num (i : ℚ) | none => .null),
        ("captured_at", .num (r.captured_at : ℚ)),
        ("photo_url", match photoUrl with | some u => .str u | none => .null)]

/-- The bookings INSERT and COMMIT stage, entered after BEGIN (and after the
photos INSERT when a photo_key was given): inserts the booking row, commits,
and on success returns 201 with the new rows appended to the store. -/
def finishBooking (b : ReqBody) (o : StoreOracle) (now : Int) (db : DBState)
    (evs : List Event) (prow : Option PhotoRow) (photoUrl : Option String)
    (latNum lngNum : Option JSNum) (takenAtMs : Option Int) : BookingsResult :=
  let ev := evs ++ [Event.insertBooking]
  match o.bookingErr with
  | some e => catchResult e db ev
  | none =>
    let brow : BookingRow :=
      { id := o.bookingId, shift_id := b.shift_id.toNumber, type := b.type.toJSString,
        lat := latNum, lng := lngNum, photo_id := prow.map PhotoRow.id,
        captured_at := takenAtMs.getD now }
    let ev2 := ev ++ [Event.commitTx]
    match o.commitErr with
    | some e => catchResult e db ev2
    | none =>
      { status := 201,
        body := .obj [("ok", .bool true), ("booking", bookingJson brow photoUrl)],
        db := { photos := db.photos ++ prow.toList, bookings := db.bookings ++ [brow] },
        events := ev2 ++ [Event.release] }

/-- POST /bookings of server.js: acquire a client, validate (required
fields, type enum, numeric coordinates), parse taken_at leniently, BEGIN,
conditionally insert a photo row and sign its URL, insert the booking row,
COMMIT and respond 201; on any store error ROLLBACK and classify; the
client is released on every path (the finally block).  `now` is the
server's clock at the write (NOW()). -/
def postBookings (b : ReqBody) (o : StoreOracle) (now : Int) (db : DBState) : BookingsResult :=
  let ev0 : List Event := [.connect]
  if ¬ b.shift_id.truthy ∨ ¬ b.type.truthy then
    { status := 400, body := errBody "shift_id and type are required",
      db := db, events := ev0 ++ [.release] }
  else if ¬ (b.type.toJSString = "on" ∨ b.type.toJSString = "off") then
    { status := 400, body := errBody "type must be 'on' or 'off'",
      db := db, events := ev0 ++ [.release] }
  else
    let latNum := toNum b.lat
    let lngNum := toNum b.lng
    if (b.lat ≠ .undef ∧ optIsNaN latNum) ∨ (b.lng ≠ .undef ∧ optIsNaN lngNum) then
      { status := 400, body := errBody "lat/lng must be numbers if provided",
        db := db, events := ev0 ++ [.release] }
    else
      let takenAtMs : Option Int := if b.taken_at.truthy then newDate b.taken_at else none
      let ev1 := ev0 ++ [Event.beginTx]
      match o.beginErr with
      | some e => catchResult e db ev1
      | none =>
        if b.photo_key.truthy then
          let key := b.photo_key.toJSString
          let ev2 := ev1 ++ [Event.insertPhoto key]
          match o.photoErr with
          | some e => catchResult e db ev2
          | none =>
            let prow : PhotoRow := { id := o.photoId, s3_key := key }
            let signed := signPhotoUrl key 3600
            finishBooking b o now db (ev2 ++ signed.2) (some prow) signed.1
              latNum lngNum takenAtMs
        else
          finishBooking b o now db ev1 none none latNum lngNum takenAtMs

/-- Outcome of a POST /bookings call in the extended model that also gives
the catch block's awaited ROLLBACK a store outcome: `response` is none
when that ROLLBACK fails, because the rejection propagates out of the
catch block, the handler's promise rejects and no HTTP response is sent
(the finally block still releases the client). -/
structure BookingsOutcome where
  response : Option (Nat × Json)
  db : DBState
  events : List Event

/-- The catch block of POST /bookings in the extended model: the ROLLBACK
is awaited first; if the store fails it (`rbErr`), the handler rejects and
no response is sent; otherwise the error is classified exactly as in
catchResult — 400 foreign_key_violation with detail for SQLSTATE 23503,
bare 500 server_error for everything else.  The client is released on
every path. -/
def catchResultR (e : PgError) (rbErr : Option PgError) (db : DBState) (evs : List Event) :
    BookingsOutcome :=
  match rbErr with
  | some _ => { response := none, db := db, events := evs ++ [.rollbackTx, .release] }
  | none =>
    if e.code = "23503" then
      { response := some (400,
          .obj [("ok", .bool false), ("error", .str "foreign_key_violation"),
                ("detail", .str e.detail)]),
        db := db, events := evs ++ [.rollbackTx, .release] }
    else
      { response := some (500, errBody "server_error"),
        db := db, events := evs ++ [.rollbackTx, .release] }

/-- finishBooking in the extended model (identical to finishBooking except
that store errors go through catchResultR). -/
def finishBookingR (b : ReqBody) (o : StoreOracle) (rbErr : Option PgError) (now : Int)
    (db : DBState) (evs : List Event) (prow : Option PhotoRow) (photoUrl : Option String)
    (latNum lngNum : Option JSNum) (takenAtMs : Option Int) : BookingsOutcome :=
  let ev := evs ++ [Event.insertBooking]
  match o.bookingErr with
  | some e => catchResultR e rbErr db ev
  | none =>
    let brow : BookingRow :=
      { id := o.bookingId, shift_id := b.shift_id.toNumber, type := b.type.toJSString,
        lat := latNum, lng := lngNum, photo_id := prow.map PhotoRow.id,
        captured_at := takenAtMs.getD now }
    let ev2 := ev ++ [Event.commitTx]
    match o.commitErr with
    | some e => catchResultR e rbErr db ev2
    | none =>
      { response := some (201,
          .obj [("ok", .bool true), ("booking", bookingJson brow photoUrl)]),
        db := { photos := db.photos ++ prow.toList, bookings := db.bookings ++ [brow] },
        events := ev2 ++ [Event.release] }

/-- POST /bookings in the extended model: identical to postBookings except
that the catch block's ROLLBACK has the store outcome `rbErr`; with
`rbErr = none` it coincides with postBookings
(lemma postBookingsR_none_eq). -/
def postBookingsR (b : ReqBody) (o : StoreOracle) (rbErr : Option PgError) (now : Int)
    (db : DBState) : BookingsOutcome :=
  let ev0 : List Event := [.connect]
  if ¬ b.shift_id.truthy ∨ ¬ b.type.truthy then
    { response := some (400, errBody "shift_id and type are required"),
      db := db, events := ev0 ++ [.release] }
  else if ¬ (b.type.toJSString = "on" ∨ b.type.toJSString = "off") then
    { response := some (400, errBody "type must be 'on' or 'off'"),
      db := db, events := ev0 ++ [.release] }
  else
    let latNum := toNum b.lat
    let lngNum := toNum b.lng
    if (b.lat ≠ .undef ∧ optIsNaN latNum) ∨ (b.lng ≠ .undef ∧ optIsNaN lngNum) then
      { response := some (400, errBody "lat/lng must be numbers if provided"),
        db := db, events := ev0 ++ [.release] }
    else
      let takenAtMs : Option Int := if b.taken_at.truthy then newDate b.taken_at else none
      let ev1 := ev0 ++ [Event.beginTx]
      match o.beginErr with
      | some e => catchResultR e rbErr db ev1
      | none =>
        if b.photo_key.truthy then
          let key := b.photo_key.toJSString
          let ev2 := ev1 ++ [Event.insertPhoto key]
          match o.photoErr with
          | some e => catchResultR e rbErr db ev2
          | none =>
            let prow : PhotoRow := { id := o.photoId, s3_key := key }
            let signed := signPhotoUrl key 3600
            finishBookingR b o rbErr now db (ev2 ++ signed.2) (some prow) signed.1
              latNum lngNum takenAtMs
        else
          finishBookingR b o rbErr now db ev1 none none latNum lngNum takenAtMs

/-- The first error the store raises along the handler's transaction path:
at BEGIN, then at the photo INSERT when photo_key is truthy (the insert is
not executed otherwise), then at the booking INSERT, then at COMMIT; none
when every statement succeeds. -/
def txError (b : ReqBody) (o : StoreOracle) : Option PgError :=
  match o.beginErr with
  | some e => some e
  | none =>
    match (if b.photo_key.truthy then o.photoErr else none) with
    | some e => some e
    | none =>
      match o.bookingErr with
      | some e => some e
      | none => o.commitErr

/-- Outcome the store gives the health check's SELECT NOW(). -/
inductive QueryOutcome
  | rows (time : Json)
  | failure (e : PgError)

/-- GET /health of server.js: 200 with the store time on success, 500 with
the raised error's message on failure. -/
def getHealth (q : QueryOutcome) : Nat × Json :=
  match q with
  | .rows t => (200, .obj [("ok", .bool true), ("time", t)])
  | .failure e => (500, .obj [("ok", .bool false), ("error", .str e.message)])

/-- The destructured fields of a POST /photos/presign body. -/
structure PresignBody where
  filename : JSVal
  filetype : JSVal
deriving DecidableEq, Repr

/-- The parameters the handler passes to s3.createPresignedPost. -/
structure PresignedPostParams where
  bucket : String
  fieldsKey : String
  expires : Nat
  condMinLen : Nat
  condMaxLen : Nat
deriving DecidableEq, Repr

/-- Outcome of the s3.createPresignedPost call. -/
inductive S3PresignOutcome
  | ok (data : Json)
  | failure (msg : String)

/-- Outcome of a POST /photos/presign call: status, body, and the request
made to the Object Store. -/
structure PresignResult where
  status : Nat
  body : Json
  s3Request : PresignedPostParams

/-- POST /photos/presign of server.js: default the filename, build the key
from Date.now() (`nowMs`), the random suffix (`rand`) and the filename under
bookings/, request a presigned POST for exactly that key with a 60-second
expiry and a 1..5000000-byte content-length condition, and return key and
payload; any error gives a 500 presign_failed. -/
def postPresign (b : PresignBody) (nowMs : Nat) (rand : String)
    (s3 : S3PresignOutcome) : PresignResult :=
  let filename := match b.filename with | .undef => "photo.jpg" | v => v.toJSString
  let key := "bookings/" ++ toString nowMs ++ "-" ++ rand ++ "-" ++ filename
  let reqP : PresignedPostParams :=
    { bucket := BUCKET, fieldsKey := key, expires := 60,
      condMinLen := 1, condMaxLen := 5000000 }
  match s3 with
  | .ok data =>
    { status := 200, body := .obj [("key", .str key), ("presigned", data)], s3Request := reqP }
  | .failure _ =>
    { status := 500, body := .obj [("error", .str "presign_failed")], s3Request := reqP }

/-- Field lookup in a JSON object field list. -/
def lookupField : List (String × Json) → String → Option Json
  | [], _ => none
  | (k, v) :: rest, key => if k = key then some v else lookupField rest key

/-- Field lookup on a JSON value (none on non-objects). -/
def Json.getField (j : Json) (key : String) : Option Json :=
  match j with
  | .obj fs => lookupField fs key
  | _ => none

/-- The photo_url field of the booking object inside a 201 response body. -/
def bookingPhotoUrl (j : Json) : Option Json :=
  (j.getField "booking").bind (fun bj => bj.getField "photo_url")

/-- Whether an event is a signed-URL request to the Object Store. -/
def isSignUrlEv : Event → Bool
  | .signUrl _ _ => true
  | _ => false

/-- Whether an event is the transaction COMMIT. -/
def isCommitEv : Event → Bool
  | .commitTx => true
  | _ => false

/-- Position of the first signed-URL request in a trace. -/
def signUrlIdx (evs : List Event) : Option Nat := evs.findIdx? isSignUrlEv

/-- Position of the COMMIT in a trace. -/
def commitIdx (evs : List Event) : Option Nat := evs.findIdx? isCommitEv

/-- Number of signed-URL requests in a trace. -/
def signCount : List Event → Nat
  | [] => 0
  | e :: rest => (if isSignUrlEv e then 1 else 0) + signCount rest

/-- Whether a JS number is finite (not NaN and not an infinity). -/
def JSNum.isFinite : JSNum → Bool
  | .finite _ => true
  | _ => false

/-- The booking row a successful call inserts (and returns): ids from the
store, coerced field values, captured_at from a truthy valid taken_at else
the server write time. -/
def successRow (b : ReqBody) (o : StoreOracle) (now : Int) : BookingRow :=
  { id := o.bookingId, shift_id := b.shift_id.toNumber, type := b.type.toJSString,
    lat := toNum b.lat, lng := toNum b.lng,
    photo_id := if b.photo_key.truthy then some o.photoId else none,
    captured_at := ((if b.taken_at.truthy then newDate b.taken_at else none).getD now) }

/-- The empty store. -/
def emptyDb : DBState := { photos := [], bookings := [] }

/-- An oracle on which every statement succeeds. -/
def okOracle : StoreOracle :=
  { beginErr := none, photoErr := none, bookingErr := none, commitErr := none,
    photoId := 7, bookingId := 9 }

/-- The foreign-key violation pg raises for an unknown shift_id. -/
def fkError : PgError :=
  { code := "23503", detail := "Key (shift_id)=(42) is not present in table shifts.",
    message := "insert or update on table bookings violates foreign key constraint" }

/-- An oracle whose bookings INSERT raises the foreign-key violation. -/
def fkOracle : StoreOracle := { okOracle with bookingErr := some fkError }

/-- A generic connectivity failure. -/
def connError : PgError :=
  { code := "57P01", detail := "",
    message := "terminating connection due to administrator command" }

/-- An oracle whose bookings INSERT fails with the generic failure. -/
def connOracle : StoreOracle := { okOracle with bookingErr := some connError }

/-- A valid request attaching a photo. -/
def reqPhoto : ReqBody :=
  { shift_id := .num (.finite 1), type := .str "on", lat := .undef, lng := .undef,
    photo_key := .str "bookings/1700000000000-abc123-photo.jpg", taken_at := .undef }

/-- A valid request without a photo. -/
def reqPlain : ReqBody :=
  { shift_id := .num (.finite 1), type := .str "off", lat := .undef, lng := .undef,
    photo_key := .undef, taken_at := .undef }

/-- A request with every field absent. -/
def reqEmpty : ReqBody :=
  { shift_id := .undef, type := .undef, lat := .undef, lng := .undef,
    photo_key := .undef, taken_at := .undef }

/-- A request whose type is outside the enumeration. -/
def reqBadType : ReqBody :=
  { shift_id := .num (.finite 1), type := .str "break", lat := .undef, lng := .undef,
    photo_key := .undef, taken_at := .undef }

/-- A request whose lat does not coerce to a number. -/
def reqBadLat : ReqBody :=
  { shift_id := .num (.finite 1), type := .str "on", lat := .str "abc", lng := .undef,
    photo_key := .undef, taken_at := .undef }

/-- A request whose lat is a numeric string. -/
def reqNumStrLat : ReqBody :=
  { shift_id := .num (.finite 1), type := .str "on", lat := .str "12.5", lng := .undef,
    photo_key := .undef, taken_at := .undef }

/-- A request whose lat coerces to Infinity. -/
def reqInfLat : ReqBody :=
  { shift_id := .num (.finite 1), type := .str "on", lat := .str "Infinity", lng := .undef,
    photo_key := .undef, taken_at := .undef }

/-- A request whose taken_at is the number 0 (falsy, yet a valid epoch
timestamp for new Date). -/
def reqTakenZero : ReqBody :=
  { shift_id := .num (.finite 1), type := .str "on", lat := .undef, lng := .undef,
    photo_key := .undef, taken_at := .num (.finite 0) }

/-- A request whose taken_at is an unparseable string. -/
def reqTakenBad : ReqBody :=
  { shift_id := .num (.finite 1), type := .str "on", lat := .undef, lng := .undef,
    photo_key := .undef, taken_at := .str "not-a-date" }

/-- A request whose taken_at is a valid ISO timestamp. -/
def reqTakenIso : ReqBody :=
  { shift_id := .num (.finite 1), type := .str "on", lat := .undef, lng := .undef,
    photo_key := .undef, taken_at := .str "2020-01-01T00:00:00Z" }

/-- A request with shift_id 0 (present but falsy). -/
def reqShiftZero : ReqBody :=
  { shift_id := .num (.finite 0), type := .str "on", lat := .undef, lng := .undef,
    photo_key := .undef, taken_at := .undef }

lemma catchResult_db (e : PgError) (db : DBState) (evs : List Event) :
    (catchResult e db evs).db = db := by
  unfold catchResult; split <;> rfl

lemma catchResult_status_ne (e : PgError) (db : DBState) (evs : List Event) :
    (catchResult e db evs).status ≠ 201 := by
  unfold catchResult; split <;> simp

lemma catchResult_events (e : PgError) (db : DBState) (evs : List Event) :
    (catchResult e db evs).events = evs ++ [.rollbackTx, .release] := by
  unfold catchResult; split <;> rfl

lemma catchResult_fk (e : PgError) (db : DBState) (evs : List Event) (h : e.code = "23503") :
    (catchResult e db evs).status = 400 ∧
    (catchResult e db evs).body =
      .obj [("ok", .bool false), ("error", .str "foreign_key_violation"),
            ("detail", .str e.detail)] := by
  unfold catchResult; rw [if_pos h]; exact ⟨rfl, rfl⟩

lemma catchResult_other (e : PgError) (db : DBState) (evs : List Event) (h : e.code ≠ "23503") :
    (catchResult e db evs).status = 500 ∧
    (catchResult e db evs).body = errBody "server_error" := by
  unfold catchResult; rw [if_neg h]; exact ⟨rfl, rfl⟩

lemma postBookings_db_of_ne (b : ReqBody) (o : StoreOracle) (now : Int) (db : DBState)
    (h : (postBookings b o now db).status ≠ 201) :
    (postBookings b o now db).db = db := by
  obtain ⟨be, pe, bke, ce, pid, bid⟩ := o
  simp only [postBookings, finishBooking] at h ⊢
  split_ifs at h ⊢ <;>
    first
      | rfl
      | (cases be <;> cases pe <;> cases bke <;> cases ce <;>
          simp_all [catchResult_db, catchResult_status_ne, signPhotoUrl])

lemma postBookings_db_of_eq (b : ReqBody) (o : StoreOracle) (now : Int) (db : DBState)
    (h : (postBookings b o now db).status = 201) :
    (postBookings b o now db).db =
      { photos := db.photos ++
          (if b.photo_key.truthy then [{ id := o.photoId, s3_key := b.photo_key.toJSString }] else []),
        bookings := db.bookings ++ [successRow b o now] } := by
  obtain ⟨be, pe, bke, ce, pid, bid⟩ := o
  simp only [postBookings, finishBooking] at h ⊢
  split_ifs at h ⊢ <;>
    first
      | rfl
      | (cases be <;> cases pe <;> cases bke <;> cases ce <;>
          simp_all [catchResult_db, catchResult_status_ne, signPhotoUrl, successRow])

lemma postBookings_val1 (b : ReqBody) (o : StoreOracle) (now : Int) (db : DBState)
    (h : ¬ (b.shift_id.truthy = true ∧ b.type.truthy = true)) :
    postBookings b o now db =
      { status := 400, body := errBody "shift_id and type are required",
        db := db, events := [.connect, .release] } := by
  simp only [postBookings]
  rw [if_pos]
  · rfl
  · rcases Bool.eq_false_or_eq_true b.shift_id.truthy with h1 | h1 <;>
      rcases Bool.eq_false_or_eq_true b.type.truthy with h2 | h2 <;> simp_all

lemma postBookings_val2 (b : ReqBody) (o : StoreOracle) (now : Int) (db : DBState)
    (h1 : b.shift_id.truthy = true) (h2 : b.type.truthy = true)
    (h3 : ¬ (b.type.toJSString = "on" ∨ b.type.toJSString = "off")) :
    postBookings b o now db =
      { status := 400, body := errBody "type must be 'on' or 'off'",
        db := db, events := [.connect, .release] } := by
  simp only [postBookings]
  rw [if_neg, if_pos h3]
  · rfl
  · simp [h1, h2]

lemma postBookings_val3 (b : ReqBody) (o : StoreOracle) (now : Int) (db : DBState)
    (h1 : b.shift_id.truthy = true) (h2 : b.type.truthy = true)
    (h3 : b.type.toJSString = "on" ∨ b.type.toJSString = "off")
    (h4 : (b.lat ≠ .undef ∧ optIsNaN (toNum b.lat) = true) ∨
          (b.lng ≠ .undef ∧ optIsNaN (toNum b.lng) = true)) :
    postBookings b o now db =
      { status := 400, body := errBody "lat/lng must be numbers if provided",
        db := db, events := [.connect, .release] } := by
  simp only [postBookings]
  rw [if_neg (by simp [h1, h2]), if_neg (by simp [h3]), if_pos h4]
  rfl

lemma postBookings_status_taken_at (b : ReqBody) (o : StoreOracle) (now : Int) (db : DBState)
    (t1 t2 : JSVal) :
    (postBookings { b with taken_at := t1 } o now db).status =
    (postBookings { b with taken_at := t2 } o now db).status := by
  obtain ⟨be, pe, bke, ce, pid, bid⟩ := o
  simp only [postBookings, finishBooking]
  split_ifs <;>
    first
      | rfl
      | (cases be <;> cases pe <;> cases bke <;> cases ce <;>
          simp_all [catchResult, signPhotoUrl])

lemma evLast_append_pair {α : Type} (l : List α) (a b : α) :
    (l ++ [a, b]).getLast? = some b := by
  have h : l ++ [a, b] = (l ++ [a]) ++ [b] := by simp
  rw [h, List.getLast?_concat]

lemma catchResultR_db (e : PgError) (rbErr : Option PgError) (db : DBState)
    (evs : List Event) : (catchResultR e rbErr db evs).db = db := by
  cases rbErr with
  | none => simp only [catchResultR]; split_ifs <;> rfl
  | some re => rfl

lemma catchResultR_events (e : PgError) (rbErr : Option PgError) (db : DBState)
    (evs : List Event) : (catchResultR e rbErr db evs).events = evs ++ [.rollbackTx, .release] := by
  cases rbErr with
  | none => simp only [catchResultR]; split_ifs <;> rfl
  | some re => rfl

lemma catchResultR_resp_fk (e : PgError) (db : DBState) (evs : List Event)
    (h : e.code = "23503") :
    (catchResultR e none db evs).response =
      some (400, Json.obj [("ok", Json.bool false), ("error", Json.str "foreign_key_violation"),
                           ("detail", Json.str e.detail)]) := by
  simp only [catchResultR]
  rw [if_pos h]

lemma catchResultR_resp_other (e : PgError) (db : DBState) (evs : List Event)
    (h : e.code ≠ "23503") :
    (catchResultR e none db evs).response = some (500, errBody "server_error") := by
  simp only [catchResultR]
  rw [if_neg h]

lemma catchResultR_resp_rbfail (e re : PgError) (db : DBState) (evs : List Event) :
    (catchResultR e (some re) db evs).response = none := rfl

lemma postBookingsR_catch (b : ReqBody) (o : StoreOracle) (rbErr : Option PgError)
    (now : Int) (db : DBState) (e : PgError)
    (h1 : b.shift_id.truthy = true) (h2 : b.type.truthy = true)
    (h3 : b.type.toJSString = "on" ∨ b.type.toJSString = "off")
    (h4 : ¬ ((b.lat ≠ .undef ∧ optIsNaN (toNum b.lat) = true) ∨
             (b.lng ≠ .undef ∧ optIsNaN (toNum b.lng) = true)))
    (he : txError b o = some e) :
    ∃ evs, postBookingsR b o rbErr now db = catchResultR e rbErr db evs := by
  obtain ⟨be, pe, bke, ce, pid, bid⟩ := o
  simp only [txError] at he
  simp only [postBookingsR, finishBookingR]
  rw [if_neg (by simp [h1, h2]), if_neg (by simp [h3]), if_neg h4]
  rcases Bool.eq_false_or_eq_true b.photo_key.truthy with hpk | hpk <;>
    simp only [hpk, if_true, if_false, Bool.false_eq_true, reduceIte] at he ⊢ <;>
    cases be <;> cases pe <;> cases bke <;> cases ce <;>
    simp only [Option.some.injEq] at he <;>
    first
      | exact absurd he (by simp)
      | (subst he; exact ⟨_, rfl⟩)

lemma postBookingsR_none_eq (b : ReqBody) (o : StoreOracle) (now : Int) (db : DBState) :
    postBookingsR b o none now db =
      { response := some ((postBookings b o now db).status, (postBookings b o now db).body),
        db := (postBookings b o now db).db,
        events := (postBookings b o now db).events } := by
  obtain ⟨be, pe, bke, ce, pid, bid⟩ := o
  simp only [postBookings, postBookingsR, finishBooking, finishBookingR]
  split_ifs <;>
    (try (cases be <;> cases pe <;> cases bke <;> cases ce)) <;>
    simp_all [catchResult, catchResultR, signPhotoUrl] <;>
    split_ifs <;> rfl

lemma postBookings_success_events (b : ReqBody) (o : StoreOracle) (now : Int) (db : DBState)
    (h : (postBookings b o now db).status = 201) :
    (postBookings b o now db).events =
      [.connect, .beginTx] ++
        (if b.photo_key.truthy then
          [Event.insertPhoto b.photo_key.toJSString] ++
            (signPhotoUrl b.photo_key.toJSString 3600).2
         else []) ++ [.insertBooking, .commitTx, .release] := by
  obtain ⟨be, pe, bke, ce, pid, bid⟩ := o
  simp only [postBookings, finishBooking] at h ⊢
  split_ifs at h ⊢ <;>
    first
      | rfl
      | (cases be <;> cases pe <;> cases bke <;> cases ce <;>
          simp_all [catchResult_status_ne, catchResult_events, signPhotoUrl])

lemma evLast_cons_cons {α : Type} (a b : α) (l : List α) :
    (a :: b :: l).getLast? = (b :: l).getLast? := rfl

lemma evLast_singleton {α : Type} (a : α) : ([a] : List α).getLast? = some a := rfl

lemma catchResult_body_cases (e : PgError) (db : DBState) (evs : List Event) :
    (∃ d, (catchResult e db evs).body =
      Json.obj [("ok", Json.bool false), ("error", Json.str "foreign_key_violation"),
                ("detail", Json.str d)]) ∨
    (catchResult e db evs).body = errBody "server_error" := by
  unfold catchResult; split
  · exact Or.inl ⟨e.detail, rfl⟩
  · exact Or.inr rfl

lemma postBookings_err_body (b : ReqBody) (o : StoreOracle) (now : Int) (db : DBState)
    (h : (postBookings b o now db).status ≠ 201) :
    (postBookings b o now db).body = errBody "shift_id and type are required" ∨
    (postBookings b o now db).body = errBody "type must be 'on' or 'off'" ∨
    (postBookings b o now db).body = errBody "lat/lng must be numbers if provided" ∨
    (∃ d, (postBookings b o now db).body =
      Json.obj [("ok", Json.bool false), ("error", Json.str "foreign_key_violation"),
                ("detail", Json.str d)]) ∨
    (postBookings b o now db).body = errBody "server_error" := by
  obtain ⟨be, pe, bke, ce, pid, bid⟩ := o
  simp only [postBookings, finishBooking] at h ⊢
  split_ifs at h ⊢ <;>
    first
      | exact Or.inl rfl
      | exact Or.inr (Or.inl rfl)
      | exact Or.inr (Or.inr (Or.inl rfl))
      | (cases be <;> cases pe <;> cases bke <;> cases ce <;>
          first
            | exact Or.inr (Or.inr (Or.inr (catchResult_body_cases _ _ _)))
            | simp_all)

/-- C1: for every booking-creation request with a non-empty (truthy)
photo_key, the photo and booking inserts are atomic: a 201 appends exactly
one photo row and one booking row whose photo_id references it, and on any
failure the committed store is unchanged — no partial state such as an
orphaned photo row persists. -/
theorem C1_photo_booking_atomic (b : ReqBody) (o : StoreOracle) (now : Int) (db : DBState)
    (hpk : b.photo_key.truthy = true) :
    ((postBookings b o now db).status = 201 →
      ∃ prow brow, (postBookings b o now db).db.photos = db.photos ++ [prow] ∧
        (postBookings b o now db).db.bookings = db.bookings ++ [brow] ∧
        brow.photo_id = some prow.id) ∧
    ((postBookings b o now db).status ≠ 201 → (postBookings b o now db).db = db) := by
  constructor
  · intro h
    rw [postBookings_db_of_eq b o now db h]
    refine ⟨{ id := o.photoId, s3_key := b.photo_key.toJSString }, successRow b o now, ?_, rfl, ?_⟩
    · simp [hpk]
    · simp [successRow, hpk]
  · exact postBookings_db_of_ne b o now db

/-- Witness for C1: the foreign-key-failure oracle at a concrete request
with a photo leaves the store unchanged. -/
theorem C1_photo_booking_atomic_witness :
    reqPhoto.photo_key.truthy = true ∧
    (((postBookings reqPhoto fkOracle 999 emptyDb).status = 201 →
        ∃ prow brow,
          (postBookings reqPhoto fkOracle 999 emptyDb).db.photos = emptyDb.photos ++ [prow] ∧
          (postBookings reqPhoto fkOracle 999 emptyDb).db.bookings = emptyDb.bookings ++ [brow] ∧
          brow.photo_id = some prow.id) ∧
      ((postBookings reqPhoto fkOracle 999 emptyDb).status ≠ 201 →
        (postBookings reqPhoto fkOracle 999 emptyDb).db = emptyDb)) :=
  ⟨by decide, C1_photo_booking_atomic reqPhoto fkOracle 999 emptyDb (by decide)⟩

/-- C8: every booking-creation call ends by releasing its pooled client —
the last collaborator event on every exit path (success, validation
failure, store error) is the release. -/
theorem C8_release_unconditional (b : ReqBody) (o : StoreOracle) (now : Int) (db : DBState) :
    (postBookings b o now db).events.getLast? = some Event.release := by
  obtain ⟨be, pe, bke, ce, pid, bid⟩ := o
  cases be <;> cases pe <;> cases bke <;> cases ce <;>
    simp only [postBookings, finishBooking, catchResult, signPhotoUrl] <;>
    split_ifs <;>
    simp_all [evLast_cons_cons, evLast_singleton]

/-- C10: a present but falsy shift_id or type (the number 0, the empty
string, false, or null) is rejected by the missing-required-field check —
presence is tested by truthiness — with no transaction and no write, so a
shift_id of 0 can never create a booking. -/
theorem C10_falsy_required_rejected (b : ReqBody) (o : StoreOracle) (now : Int) (db : DBState)
    (h : b.shift_id = .num (.finite 0) ∨ b.shift_id = .str "" ∨ b.shift_id = .bool false ∨
         b.shift_id = .null ∨ b.type = .num (.finite 0) ∨ b.type = .str "" ∨
         b.type = .bool false ∨ b.type = .null) :
    postBookings b o now db =
      { status := 400, body := errBody "shift_id and type are required",
        db := db, events := [.connect, .release] } := by
  apply postBookings_val1
  rintro ⟨hs, ht⟩
  rcases h with h | h | h | h | h | h | h | h <;> simp_all [JSVal.truthy]

/-- Witness for C10: shift_id 0 is rejected with the required-field error
and no write. -/
theorem C10_falsy_required_rejected_witness :
    (reqShiftZero.shift_id = JSVal.num (JSNum.finite 0) ∨
      reqShiftZero.shift_id = JSVal.str "" ∨ reqShiftZero.shift_id = JSVal.bool false ∨
      reqShiftZero.shift_id = JSVal.null ∨ reqShiftZero.type = JSVal.num (JSNum.finite 0) ∨
      reqShiftZero.type = JSVal.str "" ∨ reqShiftZero.type = JSVal.bool false ∨
      reqShiftZero.type = JSVal.null) ∧
    postBookings reqShiftZero okOracle 0 emptyDb =
      { status := 400, body := errBody "shift_id and type are required",
        db := emptyDb, events := [.connect, .release] } :=
  ⟨Or.inl rfl, C10_falsy_required_rejected reqShiftZero okOracle 0 emptyDb (Or.inl rfl)⟩

/-- C2 counterexample: a request missing its required fields is answered
400, but the error field carries the literal message string, not the
machine code missing_required_field the claim names. -/
theorem C2_counterexample :
    (postBookings reqEmpty okOracle 0 emptyDb).status = 400 ∧
    (postBookings reqEmpty okOracle 0 emptyDb).body.getField "error" =
      some (Json.str "shift_id and type are required") ∧
    Json.str "shift_id and type are required" ≠ Json.str "missing_required_field" := by
  refine ⟨rfl, rfl, ?_⟩
  intro h
  injection h with h'
  exact absurd h' (by decide)

/-- C2 (amended): validation fails fast, in order — (1) shift_id and type
truthy, (2) type exactly on or off, (3) lat/lng numeric if present — each
producing a distinct 400 response whose error field is a constant literal
message (not the codes missing_required_field / invalid_type /
invalid_coordinate), with no store statement issued and the store
unchanged. -/
theorem C2_validation_order (b : ReqBody) (o : StoreOracle) (now : Int) (db : DBState) :
    (¬ (b.shift_id.truthy = true ∧ b.type.truthy = true) →
      postBookings b o now db =
        { status := 400, body := errBody "shift_id and type are required",
          db := db, events := [.connect, .release] }) ∧
    (b.shift_id.truthy = true → b.type.truthy = true →
      ¬ (b.type.toJSString = "on" ∨ b.type.toJSString = "off") →
      postBookings b o now db =
        { status := 400, body := errBody "type must be 'on' or 'off'",
          db := db, events := [.connect, .release] }) ∧
    (b.shift_id.truthy = true → b.type.truthy = true →
      (b.type.toJSString = "on" ∨ b.type.toJSString = "off") →
      ((b.lat ≠ .undef ∧ optIsNaN (toNum b.lat) = true) ∨
       (b.lng ≠ .undef ∧ optIsNaN (toNum b.lng) = true)) →
      postBookings b o now db =
        { status := 400, body := errBody "lat/lng must be numbers if provided",
          db := db, events := [.connect, .release] }) ∧
    (errBody "shift_id and type are required" ≠ errBody "type must be 'on' or 'off'" ∧
     errBody "shift_id and type are required" ≠ errBody "lat/lng must be numbers if provided" ∧
     errBody "type must be 'on' or 'off'" ≠ errBody "lat/lng must be numbers if provided") :=
  ⟨postBookings_val1 b o now db,
   fun h1 h2 h3 => postBookings_val2 b o now db h1 h2 h3,
   fun h1 h2 h3 h4 => postBookings_val3 b o now db h1 h2 h3 h4,
   by simp [errBody], by simp [errBody], by simp [errBody]⟩

/-- Witness for C2 at the three concrete failing requests, one per
validation stage. -/
theorem C2_validation_order_witness :
    postBookings reqEmpty okOracle 0 emptyDb =
      { status := 400, body := errBody "shift_id and type are required",
        db := emptyDb, events := [.connect, .release] } ∧
    postBookings reqBadType okOracle 0 emptyDb =
      { status := 400, body := errBody "type must be 'on' or 'off'",
        db := emptyDb, events := [.connect, .release] } ∧
    postBookings reqBadLat okOracle 0 emptyDb =
      { status := 400, body := errBody "lat/lng must be numbers if provided",
        db := emptyDb, events := [.connect, .release] } :=
  ⟨(C2_validation_order reqEmpty okOracle 0 emptyDb).1 (by decide),
   (C2_validation_order reqBadType okOracle 0 emptyDb).2.1 (by decide) (by decide) (by decide),
   (C2_validation_order reqBadLat okOracle 0 emptyDb).2.2.1 (by decide) (by decide)
     (by decide) (by decide)⟩

/-- C3 counterexample: a transport failure at the booking insert whose
subsequent ROLLBACK also fails (a dead connection fails both) sends no
response at all — the claim's "the response is a server error with the
generic code server_error" is false for that store failure.  The rollback
was still attempted, the store is unchanged and the client released. -/
theorem C3_counterexample :
    (postBookingsR reqPlain connOracle (some connError) 999 emptyDb).response = none ∧
    (postBookingsR reqPlain connOracle (some connError) 999 emptyDb).db = emptyDb ∧
    (postBookingsR reqPlain connOracle (some connError) 999 emptyDb).events =
      [.connect, .beginTx, .insertBooking, .rollbackTx, .release] ∧
    (none : Option (Nat × Json)) ≠ some (500, errBody "server_error") :=
  ⟨rfl, rfl, rfl, fun h => nomatch h⟩

/-- C3 (amended): whichever statement of the transaction the store fails —
BEGIN, the photo insert, the booking insert or COMMIT — the ROLLBACK is
issued before any response, the committed store is unchanged and the
client is released; provided the awaited ROLLBACK round-trip itself
succeeds, SQLSTATE 23503 is answered 400 with code foreign_key_violation
and the store-provided detail passed through, and any other store failure
is answered with the bare 500 server_error carrying nothing of the error;
when the ROLLBACK itself fails, the handler rejects and no response is
sent. -/
theorem C3_store_error_classified (b : ReqBody) (o : StoreOracle) (rbErr : Option PgError)
    (now : Int) (db : DBState) (e : PgError)
    (h1 : b.shift_id.truthy = true) (h2 : b.type.truthy = true)
    (h3 : b.type.toJSString = "on" ∨ b.type.toJSString = "off")
    (h4 : ¬ ((b.lat ≠ .undef ∧ optIsNaN (toNum b.lat) = true) ∨
             (b.lng ≠ .undef ∧ optIsNaN (toNum b.lng) = true)))
    (he : txError b o = some e) :
    ((postBookingsR b o rbErr now db).db = db ∧
      Event.rollbackTx ∈ (postBookingsR b o rbErr now db).events ∧
      (postBookingsR b o rbErr now db).events.getLast? = some Event.release) ∧
    (rbErr = none → e.code = "23503" →
      (postBookingsR b o rbErr now db).response =
        some (400, Json.obj [("ok", Json.bool false),
                             ("error", Json.str "foreign_key_violation"),
                             ("detail", Json.str e.detail)])) ∧
    (rbErr = none → e.code ≠ "23503" →
      (postBookingsR b o rbErr now db).response = some (500, errBody "server_error")) ∧
    (∀ re, rbErr = some re → (postBookingsR b o rbErr now db).response = none) := by
  obtain ⟨evs, heq⟩ := postBookingsR_catch b o rbErr now db e h1 h2 h3 h4 he
  rw [heq]
  refine ⟨⟨catchResultR_db e rbErr db evs, ?_, ?_⟩, ?_, ?_, ?_⟩
  · rw [catchResultR_events]; simp
  · rw [catchResultR_events, evLast_append_pair]
  · intro hrb hc; rw [hrb]; exact catchResultR_resp_fk e db evs hc
  · intro hrb hc; rw [hrb]; exact catchResultR_resp_other e db evs hc
  · intro re hrb; rw [hrb]; exact catchResultR_resp_rbfail e re db evs

/-- Witness for C3: a concrete foreign-key failure gives the 400 with
detail, a concrete connectivity failure with a succeeding ROLLBACK gives
the bare 500, a failure at COMMIT is classified the same way, and a
failing ROLLBACK sends nothing; the store is unchanged throughout. -/
theorem C3_store_error_classified_witness :
    (postBookingsR reqPlain fkOracle none 999 emptyDb).response =
      some (400, Json.obj [("ok", Json.bool false), ("error", Json.str "foreign_key_violation"),
                           ("detail", Json.str fkError.detail)]) ∧
    (postBookingsR reqPlain fkOracle none 999 emptyDb).db = emptyDb ∧
    (postBookingsR reqPlain connOracle none 999 emptyDb).response =
      some (500, errBody "server_error") ∧
    (postBookingsR reqPlain connOracle none 999 emptyDb).db = emptyDb ∧
    (postBookingsR reqPlain { okOracle with commitErr := some connError } none 999
        emptyDb).response = some (500, errBody "server_error") ∧
    (postBookingsR reqPlain { okOracle with commitErr := some connError } none 999
        emptyDb).db = emptyDb ∧
    (postBookingsR reqPlain connOracle (some connError) 999 emptyDb).response = none := by
  have hfk := C3_store_error_classified reqPlain fkOracle none 999 emptyDb fkError
    (by decide) (by decide) (by decide) (by decide) rfl
  have hco := C3_store_error_classified reqPlain connOracle none 999 emptyDb connError
    (by decide) (by decide) (by decide) (by decide) rfl
  have hcm := C3_store_error_classified reqPlain { okOracle with commitErr := some connError }
    none 999 emptyDb connError (by decide) (by decide) (by decide) (by decide) rfl
  have hrb := C3_store_error_classified reqPlain connOracle (some connError) 999 emptyDb
    connError (by decide) (by decide) (by decide) (by decide) rfl
  exact ⟨hfk.2.1 rfl rfl, hfk.1.1, hco.2.2.1 rfl (by decide), hco.1.1,
    hcm.2.2.1 rfl (by decide), hcm.1.1, hrb.2.2.2 connError rfl⟩

/-- C4 counterexample: on a successful call with a photo, the signed-URL
request (trace position 3) precedes the COMMIT (position 5) — it is made
inside the transaction, not post-commit as the claim states. -/
theorem C4_counterexample :
    (postBookings reqPhoto okOracle 999 emptyDb).status = 201 ∧
    signUrlIdx (postBookings reqPhoto okOracle 999 emptyDb).events = some 3 ∧
    commitIdx (postBookings reqPhoto okOracle 999 emptyDb).events = some 5 ∧
    ¬ (∃ i j, signUrlIdx (postBookings reqPhoto okOracle 999 emptyDb).events = some i ∧
        commitIdx (postBookings reqPhoto okOracle 999 emptyDb).events = some j ∧ j < i) := by
  refine ⟨rfl, rfl, rfl, ?_⟩
  rintro ⟨i, j, hi, hj, hlt⟩
  have e1 : signUrlIdx (postBookings reqPhoto okOracle 999 emptyDb).events = some 3 := rfl
  have e2 : commitIdx (postBookings reqPhoto okOracle 999 emptyDb).events = some 5 := rfl
  rw [e1, Option.some.injEq] at hi
  rw [e2, Option.some.injEq] at hj
  omega

/-- C4 (amended): the signed URL is requested inside the transaction,
between the photo insert and the booking insert/commit; exactly one
request per call that performs the photo insert — including calls that
later fail and roll back, so the (persistence-free) request can occur on a
failure path; no photo means no request and a null photo_url; failures
leave the store unchanged. -/
theorem C4_signurl_in_transaction (b : ReqBody) (o : StoreOracle) (now : Int) (db : DBState)
    (s : String) :
    (¬ b.photo_key.truthy = true →
      signCount (postBookings b o now db).events = 0 ∧
      ((postBookings b o now db).status = 201 →
        bookingPhotoUrl (postBookings b o now db).body = some Json.null)) ∧
    (b.photo_key = .str s → s ≠ "" → (postBookings b o now db).status = 201 →
      (postBookings b o now db).events =
        [.connect, .beginTx, .insertPhoto s, .signUrl s 3600, .insertBooking,
         .commitTx, .release] ∧
      signCount (postBookings b o now db).events = 1) ∧
    (b.photo_key = .str s → s ≠ "" →
      b.shift_id.truthy = true → b.type.truthy = true →
      (b.type.toJSString = "on" ∨ b.type.toJSString = "off") →
      ¬ ((b.lat ≠ .undef ∧ optIsNaN (toNum b.lat) = true) ∨
         (b.lng ≠ .undef ∧ optIsNaN (toNum b.lng) = true)) →
      o.beginErr = none → o.photoErr = none →
      signCount (postBookings b o now db).events = 1) ∧
    ((postBookings b o now db).status ≠ 201 → (postBookings b o now db).db = db) := by
  refine ⟨?_, ?_, ?_, postBookings_db_of_ne b o now db⟩
  · intro hpk
    obtain ⟨be, pe, bke, ce, pid, bid⟩ := o
    constructor
    · simp only [postBookings, finishBooking]
      split_ifs <;>
        (try (cases be <;> cases pe <;> cases bke <;> cases ce)) <;>
        simp_all [catchResult_events, signCount, isSignUrlEv, signPhotoUrl]
    · intro hs
      simp only [postBookings, finishBooking] at hs ⊢
      split_ifs at hs ⊢ <;>
        (try (cases be <;> cases pe <;> cases bke <;> cases ce)) <;>
        simp_all [catchResult_status_ne, bookingPhotoUrl, Json.getField, lookupField,
          bookingJson, signPhotoUrl]
  · intro hpk hne hs
    have ht : b.photo_key.truthy = true := by
      rw [hpk]; simp [JSVal.truthy, hne]
    have hev := postBookings_success_events b o now db hs
    rw [hev, if_pos ht, hpk]
    constructor
    · simp [JSVal.toJSString, signPhotoUrl, hne]
    · simp [JSVal.toJSString, signPhotoUrl, hne, signCount, isSignUrlEv]
  · intro hpk hne h1 h2 h3 h4 hbe hpe
    have ht : b.photo_key.truthy = true := by
      rw [hpk]; simp [JSVal.truthy, hne]
    obtain ⟨be, pe, bke, ce, pid, bid⟩ := o
    simp only at hbe hpe
    subst hbe hpe
    cases bke <;> cases ce <;>
      simp only [postBookings, finishBooking] <;>
      rw [if_neg (by simp [h1, h2]), if_neg (by simp [h3]), if_neg h4] <;>
      simp_all [catchResult_events, signCount, isSignUrlEv, signPhotoUrl, JSVal.toJSString]

/-- Witness for C4: concrete traces — one signed-URL request inside the
successful transaction, none without a photo (and a null photo_url), and
still one on the foreign-key failure path. -/
theorem C4_signurl_in_transaction_witness :
    (postBookings reqPhoto okOracle 999 emptyDb).events =
      [.connect, .beginTx, .insertPhoto "bookings/1700000000000-abc123-photo.jpg",
       .signUrl "bookings/1700000000000-abc123-photo.jpg" 3600, .insertBooking,
       .commitTx, .release] ∧
    signCount (postBookings reqPhoto okOracle 999 emptyDb).events = 1 ∧
    signCount (postBookings reqPlain okOracle 999 emptyDb).events = 0 ∧
    bookingPhotoUrl (postBookings reqPlain okOracle 999 emptyDb).body = some Json.null ∧
    signCount (postBookings reqPhoto fkOracle 999 emptyDb).events = 1 := by
  have h2 := (C4_signurl_in_transaction reqPhoto okOracle 999 emptyDb
      "bookings/1700000000000-abc123-photo.jpg").2.1 rfl (by decide) rfl
  have h1 := (C4_signurl_in_transaction reqPlain okOracle 999 emptyDb "x").1 (by decide)
  have h3 := (C4_signurl_in_transaction reqPhoto fkOracle 999 emptyDb
      "bookings/1700000000000-abc123-photo.jpg").2.2.1 rfl (by decide) (by decide) (by decide)
      (by decide) (by decide) rfl rfl
  exact ⟨h2.1, h2.2, h1.1, h1.2 rfl, h3⟩

/-- C5 counterexample: taken_at as the number 0 is present and parses as
the valid epoch timestamp 0, yet the stored captured_at is the server
write time 999 — presence is tested by truthiness, so a falsy taken_at is
never parsed. -/
theorem C5_counterexample :
    newDate (JSVal.num (JSNum.finite 0)) = some 0 ∧
    (postBookings reqTakenZero okOracle 999 emptyDb).status = 201 ∧
    (postBookings reqTakenZero okOracle 999 emptyDb).db.bookings.map
      (fun r => r.captured_at) = [999] ∧
    (999 : Int) ≠ 0 := by
  refine ⟨rfl, rfl, rfl, by decide⟩

/-- C5 (amended): taken_at never affects the response status (an
unparseable value is lenient, never a rejection); on success, a truthy
taken_at that parses gives captured_at equal to the parsed client capture
time, while a falsy or unparseable taken_at falls back to the server's
write time. -/
theorem C5_taken_at_leniency (b : ReqBody) (o : StoreOracle) (now : Int) (db : DBState)
    (t : Int) (t1 t2 : JSVal) :
    ((postBookings { b with taken_at := t1 } o now db).status =
      (postBookings { b with taken_at := t2 } o now db).status) ∧
    (b.taken_at.truthy = true → newDate b.taken_at = some t →
      (postBookings b o now db).status = 201 →
      ∃ brow, (postBookings b o now db).db.bookings = db.bookings ++ [brow] ∧
        brow.captured_at = t) ∧
    ((b.taken_at.truthy = false ∨ newDate b.taken_at = none) →
      (postBookings b o now db).status = 201 →
      ∃ brow, (postBookings b o now db).db.bookings = db.bookings ++ [brow] ∧
        brow.captured_at = now) := by
  refine ⟨postBookings_status_taken_at b o now db t1 t2, ?_, ?_⟩
  · intro ht hp hs
    rw [postBookings_db_of_eq b o now db hs]
    exact ⟨successRow b o now, rfl, by simp [successRow, ht, hp]⟩
  · intro h hs
    rw [postBookings_db_of_eq b o now db hs]
    refine ⟨successRow b o now, rfl, ?_⟩
    rcases h with h | h <;> simp [successRow, h]

/-- Witness for C5: an unparseable and a valid taken_at give the same
status; a valid ISO taken_at is stored as its epoch time, an unparseable
one falls back to the write time 999. -/
theorem C5_taken_at_leniency_witness :
    ((postBookings { reqPlain with taken_at := .str "not-a-date" } okOracle 999 emptyDb).status =
      (postBookings { reqPlain with taken_at := .str "2020-01-01T00:00:00Z" }
        okOracle 999 emptyDb).status) ∧
    (∃ brow, (postBookings reqTakenIso okOracle 999 emptyDb).db.bookings =
        emptyDb.bookings ++ [brow] ∧ brow.captured_at = 1577836800000) ∧
    (∃ brow, (postBookings reqTakenBad okOracle 999 emptyDb).db.bookings =
        emptyDb.bookings ++ [brow] ∧ brow.captured_at = 999) :=
  ⟨(C5_taken_at_leniency reqPlain okOracle 999 emptyDb 0 (.str "not-a-date")
      (.str "2020-01-01T00:00:00Z")).1,
   (C5_taken_at_leniency reqTakenIso okOracle 999 emptyDb 1577836800000 .undef .undef).2.1
     (by decide) rfl rfl,
   (C5_taken_at_leniency reqTakenBad okOracle 999 emptyDb 0 .undef .undef).2.2
     (Or.inr rfl) rfl⟩

/-- C6 counterexample: lat "Infinity" coerces to a non-finite number yet
the request is accepted (201) and Infinity is stored — only NaN is
rejected, finiteness is not checked. -/
theorem C6_counterexample :
    strToNum "Infinity" = JSNum.posInf ∧
    JSNum.isFinite (strToNum "Infinity") = false ∧
    (postBookings reqInfLat okOracle 999 emptyDb).status = 201 ∧
    (postBookings reqInfLat okOracle 999 emptyDb).db.bookings.map (fun r => r.lat) =
      [some JSNum.posInf] :=
  ⟨rfl, rfl, rfl, rfl⟩

/-- C6 (amended): a present lat or lng must coerce to a number other than
NaN or the request is rejected with the 400 coordinate error (finiteness
is not enforced — Infinity passes); on success the stored coordinates are
exactly the coerced values, null for absent ones. -/
theorem C6_coordinate_validation (b : ReqBody) (o : StoreOracle) (now : Int) (db : DBState)
    (h1 : b.shift_id.truthy = true) (h2 : b.type.truthy = true)
    (h3 : b.type.toJSString = "on" ∨ b.type.toJSString = "off") :
    (((b.lat ≠ .undef ∧ optIsNaN (toNum b.lat) = true) ∨
      (b.lng ≠ .undef ∧ optIsNaN (toNum b.lng) = true)) →
      postBookings b o now db =
        { status := 400, body := errBody "lat/lng must be numbers if provided",
          db := db, events := [.connect, .release] }) ∧
    ((postBookings b o now db).status = 201 →
      ∃ brow, (postBookings b o now db).db.bookings = db.bookings ++ [brow] ∧
        brow.lat = toNum b.lat ∧ brow.lng = toNum b.lng) := by
  refine ⟨postBookings_val3 b o now db h1 h2 h3, ?_⟩
  intro hs
  rw [postBookings_db_of_eq b o now db hs]
  exact ⟨successRow b o now, rfl, rfl, rfl⟩

/-- Witness for C6: "abc" is rejected with the coordinate error and no
write; "12.5" is accepted and stored as the number 25/2; the absent lng is
stored as null. -/
theorem C6_coordinate_validation_witness :
    postBookings reqBadLat okOracle 0 emptyDb =
      { status := 400, body := errBody "lat/lng must be numbers if provided",
        db := emptyDb, events := [.connect, .release] } ∧
    (∃ brow, (postBookings reqNumStrLat okOracle 0 emptyDb).db.bookings =
        emptyDb.bookings ++ [brow] ∧
      brow.lat = toNum reqNumStrLat.lat ∧ brow.lng = toNum reqNumStrLat.lng) ∧
    toNum reqNumStrLat.lat = some (JSNum.finite (25 / 2)) ∧
    toNum reqNumStrLat.lng = none :=
  ⟨(C6_coordinate_validation reqBadLat okOracle 0 emptyDb (by decide) (by decide)
      (by decide)).1 (by decide),
   (C6_coordinate_validation reqNumStrLat okOracle 0 emptyDb (by decide) (by decide)
      (by decide)).2 rfl,
   by
     have h : toNum reqNumStrLat.lat =
         some (JSNum.finite ((digitsToNat ['1', '2'] : ℚ) +
           (digitsToNat ['5'] : ℚ) / 10 ^ (['5'].length))) := rfl
     rw [h]
     simp only [digitsToNat, List.foldl, List.length_cons, List.length_nil,
       show ('1'.toNat - 48) = 1 from rfl, show ('2'.toNat - 48) = 2 from rfl,
       show ('5'.toNat - 48) = 5 from rfl]
     norm_num,
   rfl⟩

/-- C7: the presign handler asks the Object Store for a credential scoped
to exactly the generated key — the bookings/ namespace, the millisecond
timestamp, the random component and the (defaulted) filename — with a
60-second expiry and a 1..5000000-byte size condition; any store error
gives the single generic 500 presign_failed, success returns the key and
payload. -/
theorem C7_presign_contract (b : PresignBody) (nowMs : Nat) (rand : String)
    (s3 : S3PresignOutcome) :
    (postPresign b nowMs rand s3).s3Request.fieldsKey =
      "bookings/" ++ toString nowMs ++ "-" ++ rand ++ "-" ++
        (match b.filename with | .undef => "photo.jpg" | v => v.toJSString) ∧
    (postPresign b nowMs rand s3).s3Request.expires = 60 ∧
    (postPresign b nowMs rand s3).s3Request.condMaxLen = 5000000 ∧
    (postPresign b nowMs rand s3).s3Request.condMinLen = 1 ∧
    (postPresign b nowMs rand s3).s3Request.bucket = BUCKET ∧
    (∀ m, s3 = .failure m →
      (postPresign b nowMs rand s3).status = 500 ∧
      (postPresign b nowMs rand s3).body = Json.obj [("error", Json.str "presign_failed")]) ∧
    (∀ data, s3 = .ok data →
      (postPresign b nowMs rand s3).status = 200 ∧
      (postPresign b nowMs rand s3).body =
        Json.obj [("key", Json.str ((postPresign b nowMs rand s3).s3Request.fieldsKey)),
                  ("presigned", data)]) := by
  cases s3 <;> simp [postPresign]

/-- Witness for C7: the concrete key for a defaulted filename, the 60s/5MB
scope, and the generic failure response. -/
theorem C7_presign_contract_witness :
    (postPresign { filename := .undef, filetype := .undef } 1700000000000 "abc123"
        (.failure "boom")).s3Request.fieldsKey = "bookings/1700000000000-abc123-photo.jpg" ∧
    (postPresign { filename := .undef, filetype := .undef } 1700000000000 "abc123"
        (.failure "boom")).s3Request.expires = 60 ∧
    (postPresign { filename := .undef, filetype := .undef } 1700000000000 "abc123"
        (.failure "boom")).s3Request.condMaxLen = 5000000 ∧
    (postPresign { filename := .undef, filetype := .undef } 1700000000000 "abc123"
        (.failure "boom")).status = 500 ∧
    (postPresign { filename := .undef, filetype := .undef } 1700000000000 "abc123"
        (.failure "boom")).body = Json.obj [("error", Json.str "presign_failed")] := by
  have h := C7_presign_contract { filename := .undef, filetype := .undef } 1700000000000
    "abc123" (.failure "boom")
  exact ⟨h.1.trans rfl, h.2.1, h.2.2.1, (h.2.2.2.2.2.1 "boom" rfl).1, (h.2.2.2.2.2.1 "boom" rfl).2⟩

/-- C9 counterexample: the health endpoint's 500 response carries the
store error's message verbatim in its error field — an internal error
message is exposed to the client. -/
theorem C9_counterexample :
    (getHealth (QueryOutcome.failure connError)).1 = 500 ∧
    (getHealth (QueryOutcome.failure connError)).2 =
      Json.obj [("ok", Json.bool false),
                ("error", Json.str "terminating connection due to administrator command")] ∧
    connError.message = "terminating connection due to administrator command" :=
  ⟨rfl, rfl, rfl⟩

/-- C9 (amended): every bookings error response is JSON in the stable
ok/error shape with one of the fixed error codes, the only store-derived
field being the FK detail; the presign error body is the fixed
presign_failed object (without an ok field); but the health endpoint's
error response passes the store error's message through to the client. -/
theorem C9_error_shapes (b : ReqBody) (o : StoreOracle) (now : Int) (db : DBState)
    (e : PgError) (pb : PresignBody) (nowMs : Nat) (rand : String) (msg : String) :
    ((postBookings b o now db).status ≠ 201 →
      (postBookings b o now db).body = errBody "shift_id and type are required" ∨
      (postBookings b o now db).body = errBody "type must be 'on' or 'off'" ∨
      (postBookings b o now db).body = errBody "lat/lng must be numbers if provided" ∨
      (∃ d, (postBookings b o now db).body =
        Json.obj [("ok", Json.bool false), ("error", Json.str "foreign_key_violation"),
                  ("detail", Json.str d)]) ∨
      (postBookings b o now db).body = errBody "server_error") ∧
    (getHealth (QueryOutcome.failure e) =
      (500, Json.obj [("ok", Json.bool false), ("error", Json.str e.message)])) ∧
    ((postPresign pb nowMs rand (.failure msg)).status = 500 ∧
      (postPresign pb nowMs rand (.failure msg)).body =
        Json.obj [("error", Json.str "presign_failed")]) :=
  ⟨postBookings_err_body b o now db, rfl, by simp [postPresign], by simp [postPresign]⟩

/-- Witness for C9: the enumerated shape at a concrete server error, and
the concrete presign failure body. -/
theorem C9_error_shapes_witness :
    ((postBookings reqPlain connOracle 999 emptyDb).body =
        errBody "shift_id and type are required" ∨
      (postBookings reqPlain connOracle 999 emptyDb).body = errBody "type must be 'on' or 'off'" ∨
      (postBookings reqPlain connOracle 999 emptyDb).body =
        errBody "lat/lng must be numbers if provided" ∨
      (∃ d, (postBookings reqPlain connOracle 999 emptyDb).body =
        Json.obj [("ok", Json.bool false), ("error", Json.str "foreign_key_violation"),
                  ("detail", Json.str d)]) ∨
      (postBookings reqPlain connOracle 999 emptyDb).body = errBody "server_error") ∧
    (postPresign { filename := .undef, filetype := .undef } 0 "r" (.failure "x")).body =
      Json.obj [("error", Json.str "presign_failed")] :=
  ⟨(C9_error_shapes reqPlain connOracle 999 emptyDb connError
      { filename := .undef, filetype := .undef } 0 "r" "x").1 (by decide),
   (C9_error_shapes reqPlain connOracle 999 emptyDb connError
      { filename := .undef, filetype := .undef } 0 "r" "x").2.2.2⟩

end AlphaApi
